import Mathlib

set_option maxRecDepth 100000

/-!
Verification development for the drone ground-control-station relay server
(`src/server.js`).  The server keeps three pieces of global mutable state:

  * `drones`        — a JS `Map` from drone id to a device record,
  * `commandQueues` — a JS `Map` from drone id to an array of pending commands,
  * `webClients`    — a JS `Set` of connected WebSocket observer clients.

We model the two maps as insertion-ordered association lists (mirroring JS
`Map` iteration order and the in-place update behaviour of `Map.set`), the
client set as a list of client handles, and each HTTP / WebSocket handler and
the cleanup interval callback as a pure function from state to state, the
broadcast events it emits, and its response.  Commands are opaque to the
server (`queue.push(command)` / `queue.shift()` never inspects them), so the
state is parametrised by the command type `Cmd`.
-/

namespace DroneGCS

/-- WebSocket readyState value of an open connection (`WebSocket.OPEN`). -/
def WS_OPEN : Nat := 1

/-- WebSocket readyState value of a closed connection (`WebSocket.CLOSED`). -/
def WS_CLOSED : Nat := 3

/-- Interval of the cleanup timer in milliseconds: `setInterval(..., 30000)`. -/
def cleanupIntervalMs : Nat := 30000

/-- Staleness timeout in milliseconds: `const timeout = 60000` in the cleanup callback. -/
def staleTimeoutMs : Nat := 60000

/-- JavaScript `x || dflt` for an optional string value: an absent value and
the empty string are falsy and select the default. -/
def orElseStr (x : Option String) (dflt : String) : String :=
  match x with
  | some s => if s = "" then dflt else s
  | none => dflt

/-- JavaScript `x || dflt` for an optional numeric value: an absent value and
`0` are falsy and select the default. -/
def orElseNat (x : Option Nat) (dflt : Nat) : Nat :=
  match x with
  | some n => if n = 0 then dflt else n
  | none => dflt

/-- `Map.get`: lookup in an insertion-ordered association list modelling a JS `Map`. -/
def mapGet {β : Type} (k : String) : List (String × β) → Option β
  | [] => none
  | e :: rest => if e.1 = k then some e.2 else mapGet k rest

/-- `Map.has`. -/
def mapHas {β : Type} (k : String) (m : List (String × β)) : Bool :=
  (mapGet k m).isSome

/-- `Map.set`: replaces the value in place when the key is present, otherwise
appends the new entry at the end (JS `Map` keeps the original insertion
position on overwrite). -/
def mapSet {β : Type} (k : String) (v : β) : List (String × β) → List (String × β)
  | [] => [(k, v)]
  | e :: rest => if e.1 = k then (k, v) :: rest else e :: mapSet k v rest

/-- `Map.delete`: removes the entry stored under the key. -/
def mapDelete {β : Type} (k : String) : List (String × β) → List (String × β)
  | [] => []
  | e :: rest => if e.1 = k then rest else e :: mapDelete k rest

/-- The keys of the association list, in insertion order. -/
def keys {β : Type} (m : List (String × β)) : List String := m.map Prod.fst

/-- The number of entries stored under a key. -/
def countKey {β : Type} (k : String) (m : List (String × β)) : Nat :=
  (m.filter (fun e => decide (e.1 = k))).length

/-- A device record, as stored in the `drones` map. -/
structure Drone where
  id : String
  ip : String
  status : String
  lastSeen : Nat
  battery : Nat
  mode : String
deriving DecidableEq

/-- The events the server broadcasts to web clients (`broadcastToWebClients`
call sites), tagged as in the JSON `type` field. -/
inductive Event (Cmd : Type) where
  | drone_connected (droneId : String)
  | command_sent (droneId : String) (command : Cmd)
  | command_ack (droneId : String) (command : Option Cmd) (ackStatus : Option String)
  | broadcast_command (command : Cmd)
  | drone_disconnected (droneId : String)
deriving DecidableEq

/-- The mutable device-side state of the server: the `drones` map and the
`commandQueues` map. -/
structure State (Cmd : Type) where
  drones : List (String × Drone)
  commandQueues : List (String × List Cmd)
deriving DecidableEq

/-- The empty initial state. -/
def initState (Cmd : Type) : State Cmd := { drones := [], commandQueues := [] }

/-- The JSON body of a poll response.  `command = some c` models the
non-empty-queue branch `res.json({command, timestamp})`; `command = none`
models the empty-queue branch `res.json({command: 'no_command'})`, whose
`command` field is the literal string `"no_command"` and which carries no
timestamp field. -/
structure PollResponse (Cmd : Type) where
  command : Option Cmd
  timestamp : Option Nat
deriving DecidableEq

/-- The string actually serialized into the `command` field of a poll
response when commands are strings: the dequeued command itself, or the
literal `"no_command"`. -/
def wireCommand (resp : PollResponse String) : String :=
  (resp.command).getD "no_command"

/-- `POST /api/drone/register` with `drone_id` present: stores a fresh device
record (status `connected`, battery `85`, mode `idle`) under the id,
resets the id's command queue to the empty array, and broadcasts
`drone_connected`. -/
def register {Cmd : Type} (droneId : String) (ipAddress : Option String) (reqIp : String)
    (now : Nat) (s : State Cmd) : State Cmd × List (Event Cmd) :=
  ({ drones := mapSet droneId
       { id := droneId, ip := orElseStr ipAddress reqIp, status := "connected",
         lastSeen := now, battery := 85, mode := "idle" } s.drones,
     commandQueues := mapSet droneId [] s.commandQueues },
   [Event.drone_connected droneId])

/-- `POST /api/drone/register` including the `if (!drone_id)` 400 guard
(`drone_id` absent or the empty string is falsy). -/
def registerHandler {Cmd : Type} (droneId : Option String) (ipAddress : Option String)
    (reqIp : String) (now : Nat) (s : State Cmd) :
    Except String (State Cmd × List (Event Cmd)) :=
  match droneId with
  | none => Except.error "drone_id required"
  | some did =>
      if did = "" then Except.error "drone_id required"
      else Except.ok (register did ipAddress reqIp now s)

/-- The update applied to an existing drone record by the poll handler:
`drone.lastSeen = Date.now(); if (status) drone.status = status;
if (battery) drone.battery = battery;` (truthiness guards: the empty string
and `0` are falsy). -/
def touchDrone (battery : Option Nat) (droneStatus : Option String) (now : Nat)
    (d : Drone) : Drone :=
  { d with
    lastSeen := now,
    status := match droneStatus with
      | some st => if st = "" then d.status else st
      | none => d.status,
    battery := match battery with
      | some b => if b = 0 then d.battery else b
      | none => d.battery }

/-- `POST /api/drone/poll/:droneId`.  If the drone id is unknown it is
auto-registered with a fresh record and an empty queue (broadcasting
`drone_connected`); otherwise the existing record is touched.  Then the
queue is read (`commandQueues.get(droneId) || []`): if non-empty, its head
is `shift`ed off, written back, `command_sent` is broadcast and the command
is returned with a timestamp; otherwise the response is
`{command: 'no_command'}`. -/
def poll {Cmd : Type} (droneId : String) (battery : Option Nat) (droneStatus : Option String)
    (reqIp : String) (now : Nat) (s : State Cmd) :
    State Cmd × List (Event Cmd) × PollResponse Cmd :=
  match mapGet droneId s.drones with
  | none =>
      let drones1 := mapSet droneId
        { id := droneId, ip := reqIp, status := orElseStr droneStatus "connected",
          lastSeen := now, battery := orElseNat battery 85, mode := "idle" } s.drones
      let queues1 := mapSet droneId ([] : List Cmd) s.commandQueues
      ({ drones := drones1, commandQueues := queues1 },
       [Event.drone_connected droneId],
       { command := none, timestamp := none })
  | some d =>
      let drones1 := mapSet droneId (touchDrone battery droneStatus now d) s.drones
      match (mapGet droneId s.commandQueues).getD [] with
      | [] =>
          ({ drones := drones1, commandQueues := s.commandQueues },
           [],
           { command := none, timestamp := none })
      | c :: rest =>
          ({ drones := drones1, commandQueues := mapSet droneId rest s.commandQueues },
           [Event.command_sent droneId c],
           { command := some c, timestamp := some now })

/-- `POST /api/drone/ack/:droneId`: logs, broadcasts `command_ack`, and
responds `{success: true}`.  It does not modify the drones map or any
command queue. -/
def ackHandler {Cmd : Type} (droneId : String) (command : Option Cmd)
    (ackStatus : Option String) (s : State Cmd) : State Cmd × List (Event Cmd) :=
  (s, [Event.command_ack droneId command ackStatus])

/-- `POST /api/command/all`: 400 when `command` is missing; otherwise, for
every registered drone, ensures a queue exists and pushes the command onto
it, then broadcasts `broadcast_command`. -/
def commandAll {Cmd : Type} (command : Option Cmd) (s : State Cmd) :
    Except String (State Cmd × List (Event Cmd)) :=
  match command with
  | none => Except.error "command required"
  | some c =>
      Except.ok
        ({ s with
           commandQueues := s.drones.foldl
             (fun qs e => mapSet e.1 ((mapGet e.1 qs).getD [] ++ [c]) qs)
             s.commandQueues },
         [Event.broadcast_command c])

/-- The `data.type === 'command'` branch of the WebSocket message handler:
drone id defaults to `'MINI_SURV_001'` (`data.droneId || 'MINI_SURV_001'`);
a missing command yields an error reply and no mutation; otherwise a queue
is created for the id if absent, the command is pushed, the sender gets a
`command_queued` confirmation and `command_sent` is broadcast to the other
clients.  The returned `Bool` is `true` when the command was queued and
`false` on the `Command is required` error reply. -/
def wsCommand {Cmd : Type} (droneId : Option String) (command : Option Cmd)
    (s : State Cmd) : State Cmd × List (Event Cmd) × Bool :=
  let did := orElseStr droneId "MINI_SURV_001"
  match command with
  | none => (s, [], false)
  | some c =>
      ({ s with
         commandQueues := mapSet did ((mapGet did s.commandQueues).getD [] ++ [c])
           s.commandQueues },
       [Event.command_sent did c],
       true)

/-- Whether the cleanup callback considers a drone stale:
`now - drone.lastSeen > timeout` with `timeout = 60000`.  (JS subtraction is
negative when `lastSeen > now`, hence not above the timeout; truncated `Nat`
subtraction gives `0` there, agreeing.) -/
def isStale (now : Nat) (d : Drone) : Bool :=
  decide (now - d.lastSeen > staleTimeoutMs)

/-- One tick of the `setInterval` cleanup callback: every drone whose
`lastSeen` is more than 60 seconds old is deleted from `drones` and from
`commandQueues`, and one `drone_disconnected` event is broadcast per
deleted drone. -/
def cleanup {Cmd : Type} (now : Nat) (s : State Cmd) : State Cmd × List (Event Cmd) :=
  let stale := s.drones.filter (fun e => isStale now e.2)
  ({ drones := s.drones.filter (fun e => !isStale now e.2),
     commandQueues := stale.foldl (fun qs e => mapDelete e.1 qs) s.commandQueues },
   stale.map (fun e => Event.drone_disconnected e.1))

/-- A WebSocket observer client handle: an identity plus the connection's
current readyState. -/
structure Client where
  cid : Nat
  readyState : Nat
deriving DecidableEq

/-- `broadcastToWebClients(data, excludeWs)`: iterates the `webClients` set
and sends the message to every client that is not the excluded sender and
whose `readyState === WebSocket.OPEN`.  It never removes a client from the
set.  Returns the client set after the call (unchanged) and the list of
clients the message was delivered to. -/
def broadcastToWebClients (clients : List Client) (excludeWs : Option Client) :
    List Client × List Client :=
  (clients,
   clients.filter (fun c => excludeWs ≠ some c ∧ c.readyState = WS_OPEN))

/-- The `ws.on('close')` handler: `webClients.delete(ws)`. -/
def wsOnClose (clients : List Client) (ws : Client) : List Client :=
  clients.filter (fun c => c ≠ ws)

/-! ### Association-list lemmas -/

theorem mapGet_mapSet_self {β : Type} (k : String) (v : β) (m : List (String × β)) :
    mapGet k (mapSet k v m) = some v := by
  induction m with
  | nil => simp [mapGet, mapSet]
  | cons e rest ih =>
      by_cases h : e.1 = k
      · simp [mapSet, h, mapGet]
      · simp [mapSet, h, mapGet, ih]

theorem mapGet_mapSet_ne {β : Type} {k k' : String} (v : β) (m : List (String × β))
    (h : k' ≠ k) : mapGet k' (mapSet k v m) = mapGet k' m := by
  have h' : ¬(k = k') := fun he => h he.symm
  induction m with
  | nil => simp [mapGet, mapSet, h']
  | cons e rest ih =>
      by_cases he : e.1 = k
      · simp [mapSet, mapGet, he, h']
      · simp [mapSet, mapGet, he, ih]

theorem mem_keys_of_mapGet_isSome {β : Type} {k : String} {m : List (String × β)}
    (h : (mapGet k m).isSome) : k ∈ keys m := by
  induction m with
  | nil => simp [mapGet] at h
  | cons e rest ih =>
      by_cases he : e.1 = k
      · simp [keys, he.symm ▸ List.mem_cons_self e.1 _, he]
      · simp only [mapGet, if_neg he] at h
        simp [keys] at ih ⊢
        exact Or.inr (ih h)

theorem mapGet_eq_none_of_not_mem {β : Type} {k : String} {m : List (String × β)}
    (h : k ∉ keys m) : mapGet k m = none := by
  cases hm : mapGet k m with
  | none => rfl
  | some v => exact absurd (mem_keys_of_mapGet_isSome (by simp [hm])) h

theorem mem_of_mapGet_some {β : Type} {k : String} {v : β} {m : List (String × β)}
    (h : mapGet k m = some v) : (k, v) ∈ m := by
  induction m with
  | nil => simp [mapGet] at h
  | cons e rest ih =>
      by_cases he : e.1 = k
      · simp only [mapGet, if_pos he] at h
        have he' : e = (k, v) := by
          cases e
          simp only [Option.some.injEq] at h
          simp_all
        rw [← he']
        exact List.mem_cons_self e rest
      · simp only [mapGet, if_neg he] at h
        exact List.mem_cons_of_mem _ (ih h)

theorem mem_keys_mapSet {β : Type} {x k : String} {v : β} {m : List (String × β)}
    (h : x ∈ keys (mapSet k v m)) : x = k ∨ x ∈ keys m := by
  induction m with
  | nil => simpa [mapSet, keys] using h
  | cons e rest ih =>
      by_cases he : e.1 = k
      · rw [mapSet, if_pos he] at h
        simp only [keys, List.map_cons, List.mem_cons] at h ⊢
        tauto
      · rw [mapSet, if_neg he] at h
        simp only [keys, List.map_cons, List.mem_cons] at h ⊢
        rcases h with h | h
        · exact Or.inr (Or.inl h)
        · rcases ih h with h' | h'
          · exact Or.inl h'
          · exact Or.inr (Or.inr h')

theorem nodup_keys_mapSet {β : Type} {k : String} (v : β) {m : List (String × β)}
    (h : (keys m).Nodup) : (keys (mapSet k v m)).Nodup := by
  induction m with
  | nil => simp [mapSet, keys]
  | cons e rest ih =>
      simp only [keys, List.map_cons, List.nodup_cons] at h
      by_cases he : e.1 = k
      · simp only [mapSet, if_pos he, keys, List.map_cons, List.nodup_cons]
        exact ⟨he ▸ h.1, h.2⟩
      · simp only [mapSet, if_neg he, keys, List.map_cons, List.nodup_cons]
        refine ⟨fun hmem => ?_, ih h.2⟩
        rcases mem_keys_mapSet (by simpa [keys] using hmem) with h' | h'
        · exact he h'
        · exact h.1 (by simpa [keys] using h')

theorem countKey_eq_count_keys {β : Type} (k : String) (m : List (String × β)) :
    countKey k m = (keys m).count k := by
  induction m with
  | nil => simp [countKey, keys]
  | cons e rest ih =>
      by_cases he : e.1 = k
      · simp [countKey, keys, he, List.count_cons, List.filter] at ih ⊢
        omega
      · simp [countKey, keys, he, List.count_cons, List.filter] at ih ⊢
        exact ih

theorem countKey_mapSet_self {β : Type} (k : String) (v : β) {m : List (String × β)}
    (h : (keys m).Nodup) : countKey k (mapSet k v m) = 1 := by
  rw [countKey_eq_count_keys]
  exact List.count_eq_one_of_mem (nodup_keys_mapSet v h)
    (mem_keys_of_mapGet_isSome (by simp [mapGet_mapSet_self]))

/-! ### Deletion lemmas -/

theorem keys_mapDelete_sublist {β : Type} (k : String) (m : List (String × β)) :
    (keys (mapDelete k m)).Sublist (keys m) := by
  induction m with
  | nil => simp [mapDelete, keys]
  | cons e rest ih =>
      by_cases he : e.1 = k
      · simp only [mapDelete, if_pos he, keys, List.map_cons]
        exact (List.sublist_cons_self _ _)
      · simp only [mapDelete, if_neg he, keys, List.map_cons]
        exact List.Sublist.cons₂ _ ih

theorem nodup_keys_mapDelete {β : Type} (k : String) {m : List (String × β)}
    (h : (keys m).Nodup) : (keys (mapDelete k m)).Nodup :=
  (keys_mapDelete_sublist k m).nodup h

theorem mapGet_mapDelete_self {β : Type} {k : String} {m : List (String × β)}
    (h : (keys m).Nodup) : mapGet k (mapDelete k m) = none := by
  induction m with
  | nil => simp [mapDelete, mapGet]
  | cons e rest ih =>
      simp only [keys, List.map_cons, List.nodup_cons] at h
      by_cases he : e.1 = k
      · simp only [mapDelete, if_pos he]
        exact mapGet_eq_none_of_not_mem (he ▸ h.1)
      · simp only [mapDelete, if_neg he, mapGet, if_neg he]
        exact ih h.2

theorem mapGet_mapDelete_none {β : Type} {k k' : String} {m : List (String × β)}
    (h : mapGet k m = none) : mapGet k (mapDelete k' m) = none := by
  induction m with
  | nil => simp [mapDelete, mapGet]
  | cons e rest ih =>
      by_cases he : e.1 = k
      · simp [mapGet, he] at h
      · simp only [mapGet, if_neg he] at h
        by_cases he' : e.1 = k'
        · simp only [mapDelete, if_pos he']
          exact h
        · simp only [mapDelete, if_neg he', mapGet, if_neg he]
          exact ih h

theorem mapGet_foldl_mapDelete_none {β γ : Type} (l : List (String × γ))
    {m : List (String × β)} {k : String} (h : mapGet k m = none) :
    mapGet k (l.foldl (fun qs e => mapDelete e.1 qs) m) = none := by
  induction l generalizing m with
  | nil => simpa using h
  | cons e rest ih => exact ih (mapGet_mapDelete_none h)

theorem mapGet_foldl_mapDelete_self {β γ : Type} {l : List (String × γ)}
    {m : List (String × β)} {k : String} (hnd : (keys m).Nodup)
    (hk : k ∈ l.map Prod.fst) :
    mapGet k (l.foldl (fun qs e => mapDelete e.1 qs) m) = none := by
  induction l generalizing m with
  | nil => simp at hk
  | cons e rest ih =>
      simp only [List.map_cons, List.mem_cons] at hk
      rcases hk with hk | hk
      · exact mapGet_foldl_mapDelete_none rest (hk ▸ mapGet_mapDelete_self hnd)
      · exact ih (nodup_keys_mapDelete e.1 hnd) hk

/-! ### Filter lemmas -/

theorem keys_filter_sublist {β : Type} (p : String × β → Bool) (m : List (String × β)) :
    (keys (m.filter p)).Sublist (keys m) :=
  (List.filter_sublist m).map Prod.fst

theorem not_mem_keys_filter {β : Type} {p : String × β → Bool} {k : String} {v : β}
    {m : List (String × β)} (hnd : (keys m).Nodup) (hget : mapGet k m = some v)
    (hp : p (k, v) = false) : k ∉ keys (m.filter p) := by
  induction m with
  | nil => simp [mapGet] at hget
  | cons e rest ih =>
      simp only [keys, List.map_cons, List.nodup_cons] at hnd
      by_cases he : e.1 = k
      · simp only [mapGet, if_pos he] at hget
        have he' : e = (k, v) := by
          cases e
          simp only [Option.some.injEq] at hget
          simp_all
        subst he'
        simp only [List.filter_cons, hp, Bool.false_eq_true, if_false]
        intro hmem
        exact hnd.1 ((keys_filter_sublist p rest).subset hmem)
      · simp only [mapGet, if_neg he] at hget
        intro hmem
        rw [List.filter_cons] at hmem
        by_cases hp' : p e
        · rw [if_pos hp'] at hmem
          simp only [keys, List.map_cons, List.mem_cons] at hmem
          rcases hmem with hmem | hmem
          · exact he hmem.symm
          · exact ih hnd.2 hget hmem
        · rw [if_neg hp'] at hmem
          exact ih hnd.2 hget hmem

theorem count_map_drone_disconnected {Cmd : Type} [DecidableEq Cmd]
    (l : List String) (k : String) :
    ((l.map (fun x => (Event.drone_disconnected x : Event Cmd))).count
      (Event.drone_disconnected k)) = l.count k := by
  induction l with
  | nil => simp
  | cons x rest ih =>
      simp only [List.map_cons, List.count_cons, ih]
      by_cases hx : x = k
      · simp [hx]
      · simp [hx, Event.drone_disconnected.injEq]

/-! ### Evaluation lemmas for the handlers -/

theorem poll_unknown {Cmd : Type} {s : State Cmd} {did : String}
    (bat : Option Nat) (st : Option String) (ip : String) (now : Nat)
    (hd : mapGet did s.drones = none) :
    poll did bat st ip now s =
      ({ drones := mapSet did
           { id := did, ip := ip, status := orElseStr st "connected",
             lastSeen := now, battery := orElseNat bat 85, mode := "idle" } s.drones,
         commandQueues := mapSet did [] s.commandQueues },
       [Event.drone_connected did],
       { command := none, timestamp := none }) := by
  unfold poll
  rw [hd]

theorem poll_registered_empty {Cmd : Type} {s : State Cmd} {did : String} {d : Drone}
    (bat : Option Nat) (st : Option String) (ip : String) (now : Nat)
    (hd : mapGet did s.drones = some d)
    (hq : (mapGet did s.commandQueues).getD [] = []) :
    poll did bat st ip now s =
      ({ drones := mapSet did (touchDrone bat st now d) s.drones,
         commandQueues := s.commandQueues },
       [], { command := none, timestamp := none }) := by
  unfold poll
  rw [hd, hq]

theorem poll_registered_dequeue {Cmd : Type} {s : State Cmd} {did : String} {d : Drone}
    {c : Cmd} {rest : List Cmd}
    (bat : Option Nat) (st : Option String) (ip : String) (now : Nat)
    (hd : mapGet did s.drones = some d)
    (hq : mapGet did s.commandQueues = some (c :: rest)) :
    poll did bat st ip now s =
      ({ drones := mapSet did (touchDrone bat st now d) s.drones,
         commandQueues := mapSet did rest s.commandQueues },
       [Event.command_sent did c],
       { command := some c, timestamp := some now }) := by
  unfold poll
  rw [hd, hq]
  rfl

theorem wsCommand_enqueue {Cmd : Type} {did : String} (h : did ≠ "") (c : Cmd)
    (s : State Cmd) :
    wsCommand (some did) (some c) s =
      ({ s with commandQueues :=
           mapSet did ((mapGet did s.commandQueues).getD [] ++ [c]) s.commandQueues },
       [Event.command_sent did c], true) := by
  unfold wsCommand
  simp [orElseStr, h]

/-! ### C1 — queue ordering -/

/-- A command value carrying a priority field.  The server treats commands as
opaque payloads, so this is one possible instantiation of the command type. -/
structure PCmd where
  name : String
  pri : Int
deriving DecidableEq

/-- Command A with priority 1 from the claimed scenario. -/
def cexA : PCmd := { name := "A", pri := 1 }

/-- Command B with priority 5 from the claimed scenario. -/
def cexB : PCmd := { name := "B", pri := 5 }

/-- Command C with priority 1 from the claimed scenario. -/
def cexC : PCmd := { name := "C", pri := 1 }

/-- State after registering `drone1` into the empty state. -/
def c1Reg : State PCmd := (register "drone1" none "10.0.0.1" 0 (initState PCmd)).1

/-- Test scenario: enqueue three commands for one device over the WebSocket
command path, in the order first `a`, then `b`, then `c`. -/
def enqueueThree {Cmd : Type} (did : String) (a b c : Cmd) (s : State Cmd) : State Cmd :=
  (wsCommand (some did) (some c)
    (wsCommand (some did) (some b)
      (wsCommand (some did) (some a) s).1).1).1

/-- Test scenario: three successive polls for one device, returning the three
response command fields in order. -/
def pollThree {Cmd : Type} (did ip : String) (t1 t2 t3 : Nat) (s : State Cmd) :
    List (Option Cmd) :=
  let p1 := poll did none none ip t1 s
  let p2 := poll did none none ip t2 p1.1
  let p3 := poll did none none ip t3 p2.1
  [p1.2.2.command, p2.2.2.command, p3.2.2.command]

/-- Claim C1, counterexample: after enqueuing A(pri=1), B(pri=5), C(pri=1)
into drone1's empty queue, successive polls dequeue them in FIFO order
`[A, B, C]`, not in the claimed priority order `[B, A, C]`: the queue is a
plain array consumed by `push`/`shift` and the priority field is never read. -/
theorem C1_counterexample :
    pollThree "drone1" "10.0.0.1" 1 2 3 (enqueueThree "drone1" cexA cexB cexC c1Reg) =
      [some cexA, some cexB, some cexC] ∧
    pollThree "drone1" "10.0.0.1" 1 2 3 (enqueueThree "drone1" cexA cexB cexC c1Reg) ≠
      [some cexB, some cexA, some cexC] := by
  constructor
  · decide
  · decide

/-- Claim C1 (amended): for every device queue, commands are dequeued in plain
FIFO (enqueue) order; any priority carried by a command is ignored.  After
enqueuing A(pri=1), B(pri=5), C(pri=1) into one registered device's empty
queue, successive dequeues return them in the order `[A, B, C]`. -/
theorem C1_fifo {Cmd : Type} (s : State Cmd) (did ip : String) (d : Drone)
    (a b c : Cmd) (t1 t2 t3 : Nat)
    (hdid : did ≠ "")
    (hd : mapGet did s.drones = some d)
    (hq : mapGet did s.commandQueues = some []) :
    pollThree did ip t1 t2 t3 (enqueueThree did a b c s) = [some a, some b, some c] := by
  simp only [enqueueThree, pollThree, wsCommand, poll, orElseStr, hdid, if_false, hq, hd,
    mapGet_mapSet_self, Option.getD_some, List.nil_append, List.cons_append,
    List.append_nil]

/-- Witness for `C1_fifo` at a concrete input. -/
theorem C1_fifo_witness :
    ("drone1" : String) ≠ "" ∧
    mapGet "drone1" c1Reg.drones =
      some { id := "drone1", ip := "10.0.0.1", status := "connected",
             lastSeen := 0, battery := 85, mode := "idle" } ∧
    mapGet "drone1" c1Reg.commandQueues = some [] ∧
    pollThree "drone1" "10.0.0.1" 1 2 3 (enqueueThree "drone1" cexA cexB cexC c1Reg) =
      [some cexA, some cexB, some cexC] :=
  ⟨by decide, by decide, by decide,
   C1_fifo c1Reg "drone1" "10.0.0.1"
     { id := "drone1", ip := "10.0.0.1", status := "connected",
       lastSeen := 0, battery := 85, mode := "idle" }
     cexA cexB cexC 1 2 3 (by decide) (by decide) (by decide)⟩

/-! ### C2 — delivery and acknowledgment -/

/-- State after registering drone1 (commands are strings) into the empty state. -/
def c2Reg : State String := (register "drone1" none "10.0.0.1" 0 (initState String)).1

/-- `c2Reg` with `takeoff` enqueued for drone1 over the WebSocket path. -/
def c2Enq : State String := (wsCommand (some "drone1") (some "takeoff") c2Reg).1

/-- First poll of the C2 scenario, at time 0: dequeues `takeoff`. -/
def c2Poll1 : State String × List (Event String) × PollResponse String :=
  poll "drone1" none none "10.0.0.1" 0 c2Enq

/-- Second poll of the C2 scenario, 20 seconds later (past the spec's 15 s
redelivery timeout), with no acknowledgment in between. -/
def c2Poll2 : State String × List (Event String) × PollResponse String :=
  poll "drone1" none none "10.0.0.1" 20000 c2Poll1.1

/-- Third poll of the C2 scenario, much later again, still unacknowledged. -/
def c2Poll3 : State String × List (Event String) × PollResponse String :=
  poll "drone1" none none "10.0.0.1" 1000000000 c2Poll2.1

/-- Claim C2, counterexample: the `takeoff` command dequeued by the first
poll and never acknowledged is not returned by a later poll even long after
any redelivery timeout: the poll removed it from the queue permanently and
there is no delivered/unacknowledged state to redeliver from. -/
theorem C2_counterexample :
    c2Poll1.2.2.command = some "takeoff" ∧
    c2Poll2.2.2.command = none ∧
    c2Poll3.2.2.command = none := by
  refine ⟨by decide, by decide, by decide⟩

/-- Claim C2 (amended): a command returned by a poll is removed from the
device's queue at poll time — the poll leaves exactly the tail of the queue —
so the dequeued command instance is never redelivered, acknowledged or not;
acknowledgment (`/api/drone/ack`) does not modify the drones map or any
command queue (it only broadcasts a `command_ack` event); and a poll only
ever returns a command that was stored in the device's queue at request
time. -/
theorem C2_pop_on_poll {Cmd : Type} (s : State Cmd) (did ip : String) (d : Drone)
    (c : Cmd) (rest : List Cmd) (bat : Option Nat) (st : Option String) (now : Nat)
    (hd : mapGet did s.drones = some d)
    (hq : mapGet did s.commandQueues = some (c :: rest)) :
    (poll did bat st ip now s).2.2.command = some c ∧
    mapGet did (poll did bat st ip now s).1.commandQueues = some rest ∧
    (∀ (did' : String) (c? : Option Cmd) (st? : Option String) (s' : State Cmd),
      (ackHandler did' c? st? s').1 = s') ∧
    (∀ c' : Cmd, (poll did bat st ip now s).2.2.command = some c' → c' ∈ c :: rest) := by
  rw [poll_registered_dequeue bat st ip now hd hq]
  refine ⟨rfl, by simp [mapGet_mapSet_self], fun _ _ _ _ => rfl, ?_⟩
  intro c' hc'
  simp only [Option.some.injEq] at hc'
  simp [hc']

/-- Witness for `C2_pop_on_poll` at a concrete input. -/
theorem C2_pop_on_poll_witness :
    mapGet "drone1" c2Enq.drones =
      some { id := "drone1", ip := "10.0.0.1", status := "connected",
             lastSeen := 0, battery := 85, mode := "idle" } ∧
    mapGet "drone1" c2Enq.commandQueues = some ("takeoff" :: []) ∧
    ((poll "drone1" none none "10.0.0.1" 0 c2Enq).2.2.command = some "takeoff" ∧
     mapGet "drone1" (poll "drone1" none none "10.0.0.1" 0 c2Enq).1.commandQueues =
       some [] ∧
     (∀ (did' : String) (c? : Option String) (st? : Option String) (s' : State String),
       (ackHandler did' c? st? s').1 = s') ∧
     (∀ c' : String,
       (poll "drone1" none none "10.0.0.1" 0 c2Enq).2.2.command = some c' →
       c' ∈ "takeoff" :: [])) :=
  ⟨by decide, by decide,
   C2_pop_on_poll c2Enq "drone1" "10.0.0.1"
     { id := "drone1", ip := "10.0.0.1", status := "connected",
       lastSeen := 0, battery := 85, mode := "idle" }
     "takeoff" [] none none 0 (by decide) (by decide)⟩

/-! ### C3 — queue lifecycle vs. registry -/

/-- Result of sending a WebSocket command for the unregistered id `ghost`. -/
def c3State : State String := (wsCommand (some "ghost") (some "land") (initState String)).1

/-- Claim C3, counterexample: the WebSocket command branch creates a command
queue for `ghost` without creating a registry record, so a device id absent
from the registry owns a queue entry. -/
theorem C3_counterexample :
    mapGet "ghost" c3State.drones = none ∧
    mapGet "ghost" c3State.commandQueues = some ["land"] := by
  refine ⟨by decide, by decide⟩

/-- Claim C3 (amended): registration and poll create the device record and an
empty queue together, and the cleanup pass removes a stale device's queue
together with its record; but the WebSocket command path enqueues without
creating a device record, so a device id absent from the registry can own a
queue entry. -/
theorem C3_lifecycle {Cmd : Type} (s : State Cmd) (did rip : String)
    (ipAddr : Option String) (bat : Option Nat) (st : Option String)
    (now : Nat) (c : Cmd) (did? : Option String)
    (hndD : (keys s.drones).Nodup) (hndQ : (keys s.commandQueues).Nodup) :
    (mapGet did (register did ipAddr rip now s).1.drones =
        some { id := did, ip := orElseStr ipAddr rip, status := "connected",
               lastSeen := now, battery := 85, mode := "idle" } ∧
      mapGet did (register did ipAddr rip now s).1.commandQueues = some []) ∧
    (mapGet did s.drones = none →
      mapGet did (poll did bat st rip now s).1.drones =
        some { id := did, ip := rip, status := orElseStr st "connected",
               lastSeen := now, battery := orElseNat bat 85, mode := "idle" } ∧
      mapGet did (poll did bat st rip now s).1.commandQueues = some []) ∧
    (∀ d : Drone, mapGet did s.drones = some d → isStale now d = true →
      mapGet did (cleanup now s).1.drones = none ∧
      mapGet did (cleanup now s).1.commandQueues = none) ∧
    (wsCommand did? (some c) s).1.drones = s.drones := by
  refine ⟨⟨by simp [register, mapGet_mapSet_self], by simp [register, mapGet_mapSet_self]⟩,
    ?_, ?_, rfl⟩
  · intro h0
    rw [poll_unknown bat st rip now h0]
    exact ⟨by simp [mapGet_mapSet_self], by simp [mapGet_mapSet_self]⟩
  · intro d hd hstale
    constructor
    · refine mapGet_eq_none_of_not_mem (not_mem_keys_filter hndD hd ?_)
      simp [hstale]
    · refine mapGet_foldl_mapDelete_self hndQ ?_
      have hmem : (did, d) ∈ s.drones.filter (fun e => isStale now e.2) :=
        List.mem_filter.mpr ⟨mem_of_mapGet_some hd, hstale⟩
      exact List.mem_map.mpr ⟨(did, d), hmem, rfl⟩

/-- Witness for `C3_lifecycle` at a concrete input. -/
theorem C3_lifecycle_witness :
    (keys c2Enq.drones).Nodup ∧ (keys c2Enq.commandQueues).Nodup ∧
    ((mapGet "drone2" (register "drone2" none "ip2" 7 c2Enq).1.drones =
        some { id := "drone2", ip := orElseStr none "ip2", status := "connected",
               lastSeen := 7, battery := 85, mode := "idle" } ∧
      mapGet "drone2" (register "drone2" none "ip2" 7 c2Enq).1.commandQueues = some []) ∧
    (mapGet "drone2" c2Enq.drones = none →
      mapGet "drone2" (poll "drone2" none none "ip2" 7 c2Enq).1.drones =
        some { id := "drone2", ip := "ip2", status := orElseStr none "connected",
               lastSeen := 7, battery := orElseNat none 85, mode := "idle" } ∧
      mapGet "drone2" (poll "drone2" none none "ip2" 7 c2Enq).1.commandQueues = some []) ∧
    (∀ d : Drone, mapGet "drone2" c2Enq.drones = some d → isStale 7 d = true →
      mapGet "drone2" (cleanup 7 c2Enq).1.drones = none ∧
      mapGet "drone2" (cleanup 7 c2Enq).1.commandQueues = none) ∧
    (wsCommand (some "drone2") (some "go") c2Enq).1.drones = c2Enq.drones) :=
  ⟨by decide, by decide,
   C3_lifecycle c2Enq "drone2" "ip2" none none none 7 "go" (some "drone2")
     (by decide) (by decide)⟩

/-! ### C4 — enqueue error behaviour -/

/-- State after registering drone `full` and enqueuing 100 commands for it,
so its pending count sits exactly at the spec's claimed cap. -/
def c4FullState : State String :=
  (List.replicate 100 "cmd").foldl (fun s c => (wsCommand (some "full") (some c) s).1)
    (register "full" none "ip" 0 (initState String)).1

/-- Claim C4, counterexample: enqueuing for the unknown id `ghost` does not
fail with DeviceNotFound — it succeeds and creates the queue on the fly —
and enqueuing for a device already holding 100 pending commands does not
fail with QueueFull — it succeeds and grows the queue to 101. -/
theorem C4_counterexample :
    ((wsCommand (some "ghost") (some "go") (initState String)).2.2 = true ∧
      mapGet "ghost" (wsCommand (some "ghost") (some "go") (initState String)).1.commandQueues =
        some ["go"] ∧
      mapGet "ghost" (initState String).drones = none) ∧
    ((wsCommand (some "full") (some "extra") c4FullState).2.2 = true ∧
      mapGet "full" (wsCommand (some "full") (some "extra") c4FullState).1.commandQueues =
        some (List.replicate 100 "cmd" ++ ["extra"])) := by
  refine ⟨⟨by decide, by decide, by decide⟩, by decide, by decide⟩

/-- Claim C4 (amended): enqueuing never fails with DeviceNotFound or
QueueFull — neither error exists in the code.  A WebSocket command enqueue
for any id, registered or not, succeeds and appends the command, creating
the queue on the fly when absent, with no cap on queue length; its only
failure is a missing command, which leaves the state unchanged.  The
broadcast enqueue (`/api/command/all`) likewise fails only on a missing
command. -/
theorem C4_enqueue_never_rejects {Cmd : Type} (s : State Cmd) (did? : Option String)
    (c : Cmd) :
    ((wsCommand did? (some c) s).2.2 = true ∧
      mapGet (orElseStr did? "MINI_SURV_001") (wsCommand did? (some c) s).1.commandQueues =
        some ((mapGet (orElseStr did? "MINI_SURV_001") s.commandQueues).getD [] ++ [c])) ∧
    wsCommand did? (none : Option Cmd) s = (s, [], false) ∧
    commandAll (none : Option Cmd) s = Except.error "command required" ∧
    commandAll (some c) s =
      Except.ok
        ({ s with
            commandQueues :=
              s.drones.foldl (fun qs e => mapSet e.1 ((mapGet e.1 qs).getD [] ++ [c]) qs)
                s.commandQueues },
         [Event.broadcast_command c]) := by
  refine ⟨⟨rfl, by simp [wsCommand, mapGet_mapSet_self]⟩, rfl, rfl, rfl⟩

/-! ### C5 — the liveness reaper -/

/-- Claim C5 (confirmed): the cleanup interval is 30 s and the staleness
timeout 60 s; on a tick, every device whose lastSeen is more than 60 s old
is removed from the registry together with its command queue, exactly one
`drone_disconnected` event is emitted for it, and a subsequent poll from
that id re-registers it afresh (broadcasting `drone_connected`). -/
theorem C5_reaper {Cmd : Type} [DecidableEq Cmd] (s : State Cmd) (now : Nat)
    (did rip : String) (d : Drone) (bat : Option Nat) (st : Option String) (t2 : Nat)
    (hndD : (keys s.drones).Nodup) (hndQ : (keys s.commandQueues).Nodup)
    (hd : mapGet did s.drones = some d) (hstale : now - d.lastSeen > staleTimeoutMs) :
    cleanupIntervalMs = 30000 ∧ staleTimeoutMs = 60000 ∧
    mapGet did (cleanup now s).1.drones = none ∧
    mapGet did (cleanup now s).1.commandQueues = none ∧
    (cleanup now s).2.count (Event.drone_disconnected did) = 1 ∧
    mapGet did (poll did bat st rip t2 (cleanup now s).1).1.drones =
      some { id := did, ip := rip, status := orElseStr st "connected",
             lastSeen := t2, battery := orElseNat bat 85, mode := "idle" } ∧
    (poll did bat st rip t2 (cleanup now s).1).2.1 = [Event.drone_connected did] := by
  have hB : isStale now d = true := by simp [isStale, hstale]
  have hmem : (did, d) ∈ s.drones.filter (fun e => isStale now e.2) :=
    List.mem_filter.mpr ⟨mem_of_mapGet_some hd, hB⟩
  have hgone : mapGet did (cleanup now s).1.drones = none := by
    refine mapGet_eq_none_of_not_mem (not_mem_keys_filter hndD hd ?_)
    simp [hB]
  refine ⟨rfl, rfl, hgone, ?_, ?_, ?_, ?_⟩
  · refine mapGet_foldl_mapDelete_self hndQ ?_
    exact List.mem_map.mpr ⟨(did, d), hmem, rfl⟩
  · show ((s.drones.filter (fun e => isStale now e.2)).map
        (fun e => Event.drone_disconnected e.1)).count (Event.drone_disconnected did) = 1
    have hrw : (s.drones.filter (fun e => isStale now e.2)).map
        (fun e => (Event.drone_disconnected e.1 : Event Cmd)) =
        ((s.drones.filter (fun e => isStale now e.2)).map Prod.fst).map
          (fun x => (Event.drone_disconnected x : Event Cmd)) := by
      rw [List.map_map]
      rfl
    rw [hrw, count_map_drone_disconnected]
    refine List.count_eq_one_of_mem ?_ ?_
    · exact ((List.filter_sublist s.drones).map Prod.fst).nodup hndD
    · exact List.mem_map.mpr ⟨(did, d), hmem, rfl⟩
  · rw [poll_unknown bat st rip t2 hgone]
    simp [mapGet_mapSet_self]
  · rw [poll_unknown bat st rip t2 hgone]

/-- The C5 witness scenario: one drone registered at time 0 and then swept at
time 70000 ms (70 s later, past the 60 s timeout). -/
def c5State : State String := (register "stale1" none "ip" 0 (initState String)).1

/-- Witness for `C5_reaper` at a concrete input. -/
theorem C5_reaper_witness :
    (keys c5State.drones).Nodup ∧ (keys c5State.commandQueues).Nodup ∧
    mapGet "stale1" c5State.drones =
      some { id := "stale1", ip := "ip", status := "connected",
             lastSeen := 0, battery := 85, mode := "idle" } ∧
    70000 - (0 : Nat) > staleTimeoutMs ∧
    (cleanupIntervalMs = 30000 ∧ staleTimeoutMs = 60000 ∧
     mapGet "stale1" (cleanup 70000 c5State).1.drones = none ∧
     mapGet "stale1" (cleanup 70000 c5State).1.commandQueues = none ∧
     (cleanup 70000 c5State).2.count (Event.drone_disconnected "stale1") = 1 ∧
     mapGet "stale1" (poll "stale1" none none "ip2" 80000 (cleanup 70000 c5State).1).1.drones =
       some { id := "stale1", ip := "ip2", status := orElseStr none "connected",
              lastSeen := 80000, battery := orElseNat none 85, mode := "idle" } ∧
     (poll "stale1" none none "ip2" 80000 (cleanup 70000 c5State).1).2.1 =
       [Event.drone_connected "stale1"]) :=
  ⟨by decide, by decide, by decide, by decide,
   C5_reaper c5State 70000 "stale1" "ip2"
     { id := "stale1", ip := "ip", status := "connected",
       lastSeen := 0, battery := 85, mode := "idle" }
     none none 80000 (by decide) (by decide) (by decide) (by decide)⟩

/-! ### C6 — idempotent registration -/

/-- Claim C6 (confirmed): registering the same non-empty device id twice never
returns an error (both calls succeed), and afterwards the registry holds
exactly one record for that id — `Map.set` overwrites in place. -/
theorem C6_register_idempotent {Cmd : Type} (s : State Cmd) (id : String)
    (ip1 ip2 : Option String) (rip1 rip2 : String) (t1 t2 : Nat)
    (hid : id ≠ "") (hnd : (keys s.drones).Nodup) :
    registerHandler (some id) ip1 rip1 t1 s = Except.ok (register id ip1 rip1 t1 s) ∧
    registerHandler (some id) ip2 rip2 t2 (register id ip1 rip1 t1 s).1 =
      Except.ok (register id ip2 rip2 t2 (register id ip1 rip1 t1 s).1) ∧
    countKey id (register id ip2 rip2 t2 (register id ip1 rip1 t1 s).1).1.drones = 1 := by
  refine ⟨by simp [registerHandler, hid], by simp [registerHandler, hid], ?_⟩
  exact countKey_mapSet_self id _ (nodup_keys_mapSet _ hnd)

/-- Witness for `C6_register_idempotent` at a concrete input. -/
theorem C6_register_idempotent_witness :
    ("dupe" : String) ≠ "" ∧ (keys (initState String).drones).Nodup ∧
    (registerHandler (some "dupe") none "ip1" 0 (initState String) =
        Except.ok (register "dupe" none "ip1" 0 (initState String)) ∧
     registerHandler (some "dupe") none "ip2" 5
         (register "dupe" none "ip1" 0 (initState String)).1 =
       Except.ok (register "dupe" none "ip2" 5
         (register "dupe" none "ip1" 0 (initState String)).1) ∧
     countKey "dupe"
       (register "dupe" none "ip2" 5
         (register "dupe" none "ip1" 0 (initState String)).1).1.drones = 1) :=
  ⟨by decide, by decide,
   C6_register_idempotent (initState String) "dupe" none none "ip1" "ip2" 0 5
     (by decide) (by decide)⟩

/-! ### C7 — re-registration is not a merge -/

/-- The C7 scenario before re-registration: drone1 registered at time 0, its
battery updated to 42 by a poll at time 1, then `takeoff` enqueued. -/
def c7Before : State String :=
  (wsCommand (some "drone1") (some "takeoff")
    (poll "drone1" (some 42) none "10.0.0.1" 1
      (register "drone1" none "10.0.0.1" 0 (initState String)).1).1).1

/-- The C7 scenario after re-registering drone1 at time 2. -/
def c7After : State String := (register "drone1" none "10.0.0.1" 2 c7Before).1

/-- Claim C7, counterexample: re-registering drone1 resets its pending queue
(`["takeoff"]` becomes `[]`) and overwrites rather than merges its record
(the battery previously stored as 42 is reset to the fresh default 85). -/
theorem C7_counterexample :
    mapGet "drone1" c7Before.commandQueues = some ["takeoff"] ∧
    (mapGet "drone1" c7Before.drones).map Drone.battery = some 42 ∧
    mapGet "drone1" c7After.commandQueues = some [] ∧
    (mapGet "drone1" c7After.drones).map Drone.battery = some 85 := by
  refine ⟨by decide, by decide, by decide, by decide⟩

/-- Claim C7 (amended): registering an id that already exists does not merge
metadata — it overwrites the device record wholesale with a fresh one
(status `connected`, battery 85, mode `idle`, `lastSeen = now`, ip from the
request) and resets the id's pending command queue to the empty array. -/
theorem C7_register_overwrites {Cmd : Type} (s : State Cmd) (did rip : String)
    (ipAddr : Option String) (now : Nat) :
    mapGet did (register did ipAddr rip now s).1.drones =
      some { id := did, ip := orElseStr ipAddr rip, status := "connected",
             lastSeen := now, battery := 85, mode := "idle" } ∧
    mapGet did (register did ipAddr rip now s).1.commandQueues = some [] := by
  exact ⟨by simp [register, mapGet_mapSet_self], by simp [register, mapGet_mapSet_self]⟩

/-! ### C8 — broadcast to a set containing a closed client -/

/-- Ten observer clients; client 2's connection is already closed. -/
def c8Clients : List Client :=
  [{ cid := 1, readyState := WS_OPEN }, { cid := 2, readyState := WS_CLOSED },
   { cid := 3, readyState := WS_OPEN }, { cid := 4, readyState := WS_OPEN },
   { cid := 5, readyState := WS_OPEN }, { cid := 6, readyState := WS_OPEN },
   { cid := 7, readyState := WS_OPEN }, { cid := 8, readyState := WS_OPEN },
   { cid := 9, readyState := WS_OPEN }, { cid := 10, readyState := WS_OPEN }]

/-- Claim C8, counterexample: broadcasting to ten subscribers of which one is
closed does deliver to the other nine, but the closed subscriber is NOT
removed from the subscriber set by the publish — it is still a member
afterwards (removal only ever happens in the connection's close handler). -/
theorem C8_counterexample :
    (broadcastToWebClients c8Clients none).2 =
      [{ cid := 1, readyState := WS_OPEN }, { cid := 3, readyState := WS_OPEN },
       { cid := 4, readyState := WS_OPEN }, { cid := 5, readyState := WS_OPEN },
       { cid := 6, readyState := WS_OPEN }, { cid := 7, readyState := WS_OPEN },
       { cid := 8, readyState := WS_OPEN }, { cid := 9, readyState := WS_OPEN },
       { cid := 10, readyState := WS_OPEN }] ∧
    ({ cid := 2, readyState := WS_CLOSED } : Client) ∈
      (broadcastToWebClients c8Clients none).1 := by
  refine ⟨by decide, by decide⟩

/-- Claim C8 (amended): publishing delivers to exactly the open subscribers
other than the excluded sender — a closed subscriber is merely skipped, so
one bad connection never affects delivery to the others nor the publish as
a whole — but the publish leaves the subscriber set unchanged; a subscriber
is removed only by its own close-event handler. -/
theorem C8_broadcast_skips_closed (clients : List Client) (excl : Option Client)
    (ws : Client) :
    (broadcastToWebClients clients excl).1 = clients ∧
    (broadcastToWebClients clients excl).2 =
      clients.filter (fun c => excl ≠ some c ∧ c.readyState = WS_OPEN) ∧
    ws ∉ wsOnClose clients ws := by
  refine ⟨rfl, rfl, ?_⟩
  simp [wsOnClose]

/-! ### C9 — at most one command per poll, and the `no_command` sentinel -/

/-- A queue created for the unregistered id `ghost2` by the WebSocket
command path (nothing has registered `ghost2`). -/
def c9State : State String := (wsCommand (some "ghost2") (some "go") (initState String)).1

/-- Claim C9, counterexample: a poll from an id that owns a non-empty queue
but has no registry record does not remove and return the head — the poll
re-registers the id, resets the entire queue to empty (discarding `go`),
and responds with the literal `no_command`. -/
theorem C9_counterexample :
    mapGet "ghost2" c9State.commandQueues = some ["go"] ∧
    (poll "ghost2" none none "ip" 5 c9State).2.2.command = none ∧
    mapGet "ghost2" (poll "ghost2" none none "ip" 5 c9State).1.commandQueues = some [] := by
  refine ⟨by decide, by decide, by decide⟩

/-- Claim C9 (amended): every poll returns at most one command.  For a
registered device: a non-empty queue has exactly its head removed and
returned; an empty or missing queue yields the literal string `no_command`
in the response's command field.  For an id with no registry record, the
poll re-registers it and resets its queue to the empty array — discarding
any commands a WebSocket enqueue had created for it — and returns
`no_command`.  The literal `no_command` is the very string a genuinely
queued `no_command` payload produces, so those two responses carry the same
command field. -/
theorem C9_poll_single (s : State String) (did ip : String) (d : Drone)
    (bat : Option Nat) (st : Option String) (now : Nat) :
    (∀ (c : String) (rest : List String),
      mapGet did s.drones = some d → mapGet did s.commandQueues = some (c :: rest) →
      wireCommand (poll did bat st ip now s).2.2 = c ∧
      mapGet did (poll did bat st ip now s).1.commandQueues = some rest) ∧
    (mapGet did s.drones = some d → (mapGet did s.commandQueues).getD [] = [] →
      wireCommand (poll did bat st ip now s).2.2 = "no_command") ∧
    (mapGet did s.drones = none →
      wireCommand (poll did bat st ip now s).2.2 = "no_command" ∧
      mapGet did (poll did bat st ip now s).1.commandQueues = some []) ∧
    (mapGet did s.drones = some d → mapGet did s.commandQueues = some ["no_command"] →
      wireCommand (poll did bat st ip now s).2.2 = "no_command") := by
  refine ⟨?_, ?_, ?_, ?_⟩
  · intro c rest hd hq
    rw [poll_registered_dequeue bat st ip now hd hq]
    exact ⟨rfl, by simp [mapGet_mapSet_self]⟩
  · intro hd hq
    rw [poll_registered_empty bat st ip now hd hq]
    rfl
  · intro h0
    rw [poll_unknown bat st ip now h0]
    exact ⟨rfl, by simp [mapGet_mapSet_self]⟩
  · intro hd hq
    rw [poll_registered_dequeue bat st ip now hd hq]
    rfl

/-- The C9 witness scenario with a genuinely queued `no_command` payload. -/
def c9NoCmd : State String := (wsCommand (some "drone1") (some "no_command") c2Reg).1

/-- Witness for `C9_poll_single`, discharging each implication at a concrete
input: a registered drone with queue `["takeoff"]`, one with an empty queue,
an unregistered id, and a registered drone whose queue holds the genuine
payload `no_command`. -/
theorem C9_poll_single_witness :
    (wireCommand (poll "drone1" none none "ip" 7 c2Enq).2.2 = "takeoff" ∧
     mapGet "drone1" (poll "drone1" none none "ip" 7 c2Enq).1.commandQueues = some []) ∧
    wireCommand (poll "drone1" none none "ip" 7 c2Reg).2.2 = "no_command" ∧
    (wireCommand (poll "nobody" none none "ip" 7 c2Reg).2.2 = "no_command" ∧
     mapGet "nobody" (poll "nobody" none none "ip" 7 c2Reg).1.commandQueues = some []) ∧
    wireCommand (poll "drone1" none none "ip" 7 c9NoCmd).2.2 = "no_command" :=
  ⟨(C9_poll_single c2Enq "drone1" "ip"
      { id := "drone1", ip := "10.0.0.1", status := "connected",
        lastSeen := 0, battery := 85, mode := "idle" }
      none none 7).1 "takeoff" [] (by decide) (by decide),
   (C9_poll_single c2Reg "drone1" "ip"
      { id := "drone1", ip := "10.0.0.1", status := "connected",
        lastSeen := 0, battery := 85, mode := "idle" }
      none none 7).2.1 (by decide) (by decide),
   (C9_poll_single c2Reg "nobody" "ip"
      { id := "drone1", ip := "10.0.0.1", status := "connected",
        lastSeen := 0, battery := 85, mode := "idle" }
      none none 7).2.2.1 (by decide),
   (C9_poll_single c9NoCmd "drone1" "ip"
      { id := "drone1", ip := "10.0.0.1", status := "connected",
        lastSeen := 0, battery := 85, mode := "idle" }
      none none 7).2.2.2 (by decide) (by decide)⟩

/-! ### C10 — truthiness-guarded status/battery updates on poll -/

/-- Claim C10 (confirmed): a poll for an already-registered device stores
exactly `touchDrone` of the old record: lastSeen is always refreshed to the
poll time, battery 0 and the empty-string status are falsy and leave the
stored battery/status unchanged, while a non-zero battery or non-empty
status overwrites the stored value. -/
theorem C10_truthy_updates {Cmd : Type} (s : State Cmd) (did ip : String) (d : Drone)
    (bat : Option Nat) (st : Option String) (now : Nat)
    (hd : mapGet did s.drones = some d) :
    mapGet did (poll did bat st ip now s).1.drones = some (touchDrone bat st now d) ∧
    (touchDrone bat st now d).lastSeen = now ∧
    (touchDrone (some 0) st now d).battery = d.battery ∧
    (touchDrone bat (some "") now d).status = d.status ∧
    (∀ b : Nat, b ≠ 0 → (touchDrone (some b) st now d).battery = b) ∧
    (∀ stv : String, stv ≠ "" → (touchDrone bat (some stv) now d).status = stv) := by
  refine ⟨?_, rfl, by simp [touchDrone], by simp [touchDrone],
    fun b hb => by simp [touchDrone, hb], fun stv hs => by simp [touchDrone, hs]⟩
  unfold poll
  rw [hd]
  cases hq : (mapGet did s.commandQueues).getD [] with
  | nil => simp [mapGet_mapSet_self]
  | cons c rest => simp [mapGet_mapSet_self]

/-- Witness for `C10_truthy_updates` at a concrete input: polling drone1
with battery 0 and status `""`. -/
theorem C10_truthy_updates_witness :
    mapGet "drone1" c2Reg.drones =
      some { id := "drone1", ip := "10.0.0.1", status := "connected",
             lastSeen := 0, battery := 85, mode := "idle" } ∧
    (mapGet "drone1"
        (poll "drone1" (some 0) (some "") "ip" 9 c2Reg).1.drones =
      some (touchDrone (some 0) (some "") 9
        { id := "drone1", ip := "10.0.0.1", status := "connected",
          lastSeen := 0, battery := 85, mode := "idle" }) ∧
     (touchDrone (some 0) (some "") 9
        { id := "drone1", ip := "10.0.0.1", status := "connected",
          lastSeen := 0, battery := 85, mode := "idle" }).lastSeen = 9 ∧
     (touchDrone (some 0) (some "") 9
        { id := "drone1", ip := "10.0.0.1", status := "connected",
          lastSeen := 0, battery := 85, mode := "idle" }).battery = 85 ∧
     (touchDrone (some 0) (some "") 9
        { id := "drone1", ip := "10.0.0.1", status := "connected",
          lastSeen := 0, battery := 85, mode := "idle" }).status = "connected" ∧
     (∀ b : Nat, b ≠ 0 →
       (touchDrone (some b) (some "") 9
          { id := "drone1", ip := "10.0.0.1", status := "connected",
            lastSeen := 0, battery := 85, mode := "idle" }).battery = b) ∧
     (∀ stv : String, stv ≠ "" →
       (touchDrone (some 0) (some stv) 9
          { id := "drone1", ip := "10.0.0.1", status := "connected",
            lastSeen := 0, battery := 85, mode := "idle" }).status = stv)) :=
  ⟨by decide,
   C10_truthy_updates c2Reg "drone1" "ip"
     { id := "drone1", ip := "10.0.0.1", status := "connected",
       lastSeen := 0, battery := 85, mode := "idle" }
     (some 0) (some "") 9 (by decide)⟩

end DroneGCS
